import Mathlib

/-!
# Verification of the `minigame` referee (`src/current/game.py`)

A shallow embedding of the `Game` class: the fixed 16-node tic-tac-toe
graph (9 cells plus 7 line nodes), the labelled board, the latched
result/status pair, move validation, the uniform three-in-a-row check,
the tie check, and the per-round stepping logic.  Strategy engines are
modelled by the observable outcome of each `step(board)` call: a returned
pair of integers, a returned `None`, or a raised exception; engine
construction is modelled by whether the factory call raises.
-/

namespace Minigame

/-- Node labels: `' '` (blank), `'C'` (cops) and `'R'` (robber). -/
inductive Label where
  | blank : Label
  | C : Label
  | R : Label
deriving DecidableEq

/-- Nodes of the tic-tac-toe graph built by `__init_tictactoe_graph`:
cells `(i, j)`, rows `('row', i)`, columns `('col', j)` and the two
diagonals `('dia', k)`. -/
inductive Node where
  | cell (i j : Nat) : Node
  | row (i : Nat) : Node
  | col (j : Nat) : Node
  | dia (k : Nat) : Node
deriving DecidableEq

/-- The edge list of `__init_tictactoe_graph`, in insertion order: for each
`i < 3`, `j < 3` the loop adds `(i,j)-(row i)`, `(i,j)-(col j)`, and
`(i,j)-(dia 0)` when `i = j`, `(i,j)-(dia 1)` when `i = 2 - j`. -/
def edges : List (Node × Node) :=
  [ (Node.cell 0 0, Node.row 0), (Node.cell 0 0, Node.col 0), (Node.cell 0 0, Node.dia 0),
    (Node.cell 0 1, Node.row 0), (Node.cell 0 1, Node.col 1),
    (Node.cell 0 2, Node.row 0), (Node.cell 0 2, Node.col 2), (Node.cell 0 2, Node.dia 1),
    (Node.cell 1 0, Node.row 1), (Node.cell 1 0, Node.col 0),
    (Node.cell 1 1, Node.row 1), (Node.cell 1 1, Node.col 1),
    (Node.cell 1 1, Node.dia 0), (Node.cell 1 1, Node.dia 1),
    (Node.cell 1 2, Node.row 1), (Node.cell 1 2, Node.col 2),
    (Node.cell 2 0, Node.row 2), (Node.cell 2 0, Node.col 0), (Node.cell 2 0, Node.dia 1),
    (Node.cell 2 1, Node.row 2), (Node.cell 2 1, Node.col 1),
    (Node.cell 2 2, Node.row 2), (Node.cell 2 2, Node.col 2), (Node.cell 2 2, Node.dia 0) ]

/-- Undirected adjacency of the graph: a node `w` is a neighbour of `v`
when either `(v, w)` or `(w, v)` is an edge (`networkx.Graph` is
undirected). -/
def adj (v : Node) : List Node :=
  edges.filterMap (fun e =>
    if e.1 = v then Option.some e.2
    else if e.2 = v then Option.some e.1
    else Option.none)

/-- All 16 nodes of the graph, in `networkx` insertion order. -/
def allNodes : List Node :=
  [ Node.dia 0, Node.dia 1,
    Node.row 0, Node.col 0, Node.cell 0 0, Node.col 1, Node.cell 0 1,
    Node.col 2, Node.cell 0 2,
    Node.row 1, Node.cell 1 0, Node.cell 1 1, Node.cell 1 2,
    Node.row 2, Node.cell 2 0, Node.cell 2 1, Node.cell 2 2 ]

/-- The 9 playable cells, in the order of the double loop of
`__game_tied`. -/
def cellsList : List (Nat × Nat) :=
  [(0, 0), (0, 1), (0, 2), (1, 0), (1, 1), (1, 2), (2, 0), (2, 1), (2, 2)]

/-- The board: the label attribute of every node of the graph.  Line
nodes are initialised blank and never written by the game. -/
abbrev Board := Node → Label

/-- `__three_in_a_row(label)`: some node all of whose neighbours carry
`label` (the source returns the ints `1`/`0`, used only as a truth
value). -/
def threeInARow (b : Board) (label : Label) : Bool :=
  allNodes.any (fun v => (adj v).all (fun w => decide (b w = label)))

/-- `__game_tied()`: every cell `(i, j)` carries a label other than
blank (the source returns the ints `1`/`0`, used only as a truth
value). -/
def gameTied (b : Board) : Bool :=
  cellsList.all (fun p => decide (b (Node.cell p.1 p.2) ≠ Label.blank))

/-- The mutable state of a `Game`: the graph labels (`self.graph`),
`self.__result`, `self.__round` and `self.__status`. -/
structure GameState where
  board : Board
  result : Int
  round : Int
  status : String

/-- `__robber_win`: set `__result` to `-1` if the game still continues. -/
def robberWin (s : GameState) : GameState :=
  if s.result = 0 then { s with result := -1 } else s

/-- `__cops_win`: set `__result` to `1` if the game still continues. -/
def copsWin (s : GameState) : GameState :=
  if s.result = 0 then { s with result := 1 } else s

/-- `__set_status`: set `__status` if the game still continues. -/
def setStatus (st : String) (s : GameState) : GameState :=
  if s.status = "Game continues" then { s with status := st } else s

/-- `__cops_three_in_a_row`: cops win, status `Robber caught`. -/
def copsThreeInARow (s : GameState) : GameState :=
  setStatus "Robber caught" (copsWin s)

/-- `__tie`: robber wins, status `Cops shift ends`. -/
def tie (s : GameState) : GameState :=
  setStatus "Cops shift ends" (robberWin s)

/-- `__robber_three_in_a_row`: robber wins, status `Robber escapes`. -/
def robberThreeInARow (s : GameState) : GameState :=
  setStatus "Robber escapes" (robberWin s)

/-- `__cops_invalid_step`: robber wins, status `Cops invalid step`. -/
def copsInvalidStep (s : GameState) : GameState :=
  setStatus "Cops invalid step" (robberWin s)

/-- `__robber_invalid_step`: cops win, status `Robber invalid step`. -/
def robberInvalidStep (s : GameState) : GameState :=
  setStatus "Robber invalid step" (copsWin s)

/-- `__cops_exception`: robber wins, status `Exception in cops call`. -/
def copsException (s : GameState) : GameState :=
  setStatus "Exception in cops call" (robberWin s)

/-- `__robber_exception`: cops win, status `Exception in robber call`. -/
def robberException (s : GameState) : GameState :=
  setStatus "Exception in robber call" (copsWin s)

/-- Write a label into a cell node (`self.graph.nodes[move]['label'] = ...`). -/
def setCell (b : Board) (i j : Nat) (lab : Label) : Board :=
  fun v => if v = Node.cell i j then lab else b v

/-- `__set_cop_positions(move)`: `None` or an out-of-range or occupied
target is an invalid cops step; otherwise the target cell is labelled
`'C'`. -/
def setCopPositions (move : Option (Int × Int)) (s : GameState) : GameState :=
  match move with
  | Option.none => copsInvalidStep s
  | Option.some (i, j) =>
      if i < 0 ∨ j < 0 ∨ 2 < i ∨ 2 < j
          ∨ s.board (Node.cell i.toNat j.toNat) ≠ Label.blank then
        copsInvalidStep s
      else
        { s with board := setCell s.board i.toNat j.toNat Label.C }

/-- `__set_robber_position(move)`: `None` or an out-of-range or occupied
target is an invalid robber step; otherwise the target cell is labelled
`'R'`. -/
def setRobberPosition (move : Option (Int × Int)) (s : GameState) : GameState :=
  match move with
  | Option.none => robberInvalidStep s
  | Option.some (i, j) =>
      if i < 0 ∨ j < 0 ∨ 2 < i ∨ 2 < j
          ∨ s.board (Node.cell i.toNat j.toNat) ≠ Label.blank then
        robberInvalidStep s
      else
        { s with board := setCell s.board i.toNat j.toNat Label.R }

/-- The observable outcome of one engine `step(board)` call: a returned
pair of integers, a returned `None`, or a raised exception. -/
inductive StepOutcome where
  | move (i j : Int) : StepOutcome
  | noMove : StepOutcome
  | exn : StepOutcome
deriving DecidableEq

/-- The move the referee goes on to validate: the returned pair, or
`None` both when the engine returned `None` and when it raised. -/
def moveOf : StepOutcome → Option (Int × Int)
  | StepOutcome.move i j => Option.some (i, j)
  | StepOutcome.noMove => Option.none
  | StepOutcome.exn => Option.none

/-- The `except` clause of `__cops_step`: a raised exception applies the
cops-exception transition before validation runs. -/
def copsExnCheck (o : StepOutcome) (s : GameState) : GameState :=
  match o with
  | StepOutcome.exn => copsException s
  | _ => s

/-- The `except` clause of `__robber_step`. -/
def robberExnCheck (o : StepOutcome) (s : GameState) : GameState :=
  match o with
  | StepOutcome.exn => robberException s
  | _ => s

/-- `if self.__three_in_a_row('C'): self.__cops_three_in_a_row()`. -/
def copWinCheck (s : GameState) : GameState :=
  if threeInARow s.board Label.C = true then copsThreeInARow s else s

/-- `if self.__three_in_a_row('R'): self.__robber_three_in_a_row()`. -/
def robberWinCheck (s : GameState) : GameState :=
  if threeInARow s.board Label.R = true then robberThreeInARow s else s

/-- `if self.__game_tied(): self.__tie()`. -/
def tieCheck (s : GameState) : GameState :=
  if gameTied s.board = true then tie s else s

/-- `__cops_step`, with the engine call abstracted by its outcome:
exception handling, then move validation, then the cops three-in-a-row
check, then the tie check. -/
def copsStep (o : StepOutcome) (s : GameState) : GameState :=
  tieCheck (copWinCheck (setCopPositions (moveOf o) (copsExnCheck o s)))

/-- `__robber_step`: exception handling, then move validation, then the
robber three-in-a-row check.  No tie check. -/
def robberStep (o : StepOutcome) (s : GameState) : GameState :=
  robberWinCheck (setRobberPosition (moveOf o) (robberExnCheck o s))

/-- `self.__round += 1`. -/
def bumpRound (s : GameState) : GameState :=
  { s with round := s.round + 1 }

/-- `next_round()`: increment the round counter, then a cops step on
even rounds and a robber step on odd rounds, the acting engine's call
outcome being `o`. -/
def nextRound (o : StepOutcome) (s : GameState) : GameState :=
  if (bumpRound s).round % 2 = 0 then copsStep o (bumpRound s)
  else robberStep o (bumpRound s)

/-- A sequence of `next_round()` calls, the `k`-th acting engine call
yielding the `k`-th outcome of the list. -/
def runRounds (os : List StepOutcome) (s : GameState) : GameState :=
  os.foldl (fun t o => nextRound o t) s

/-- What `Game.__init__` produces: the state, plus whether each engine
instance was actually constructed. -/
structure InitResult where
  state : GameState
  copsMade : Bool
  robberMade : Bool

/-- The state set up at the top of `Game.__init__`: fresh graph with all
labels blank, result `0`, round `-1`, status `Game continues`. -/
def initState : GameState :=
  { board := fun _ => Label.blank
    result := 0
    round := -1
    status := "Game continues" }

/-- `Game.__init__` with each factory call abstracted by whether it
raises (`false` = raises).  A raising cops factory applies the
cops-exception transition and returns early, so the robber engine is
never constructed; a raising robber factory applies the
robber-exception transition. -/
def gameInit (copsOk robberOk : Bool) : InitResult :=
  if copsOk = false then
    { state := copsException initState, copsMade := false, robberMade := false }
  else if robberOk = false then
    { state := robberException initState, copsMade := true, robberMade := false }
  else
    { state := initState, copsMade := true, robberMade := true }

/-- The state of a freshly constructed game whose two factories both
succeeded. -/
def startState : GameState :=
  (gameInit true true).state

/-- The state reached from a fresh construction after a sequence of
`next_round()` calls. -/
def startFrom (copsOk robberOk : Bool) (os : List StepOutcome) : GameState :=
  runRounds os (gameInit copsOk robberOk).state

/-- A pair of (deterministic, stateless) strategy engines, each mapping
the board it is shown to the outcome of its `step` call. -/
structure EnginePair where
  copsF : Board → StepOutcome
  robberF : Board → StepOutcome

/-- `next_round()` driven by an engine pair: the round counter is
incremented, then the engine selected by parity is invoked on the
current graph. -/
def nextRoundE (e : EnginePair) (s : GameState) : GameState :=
  if (bumpRound s).round % 2 = 0 then copsStep (e.copsF (bumpRound s).board) (bumpRound s)
  else robberStep (e.robberF (bumpRound s).board) (bumpRound s)

/-- `n` engine-driven `next_round()` calls. -/
def runRoundsE (e : EnginePair) : Nat → GameState → GameState
  | 0, s => s
  | n + 1, s => runRoundsE e n (nextRoundE e s)

/-- The acting engine returned an in-range move onto a blank cell. -/
def validFor (s : GameState) : StepOutcome → Bool
  | StepOutcome.move i j =>
      decide (0 ≤ i ∧ i ≤ 2 ∧ 0 ≤ j ∧ j ≤ 2
        ∧ s.board (Node.cell i.toNat j.toNat) = Label.blank)
  | StepOutcome.noMove => false
  | StepOutcome.exn => false

/-- No node's neighbour set is monochromatic in either player label. -/
def noPlayerWin (b : Board) : Bool :=
  !threeInARow b Label.C && !threeInARow b Label.R

/-- The state after the first `k` rounds of a game whose factories
succeeded. -/
def stateAt (os : List StepOutcome) (k : Nat) : GameState :=
  runRounds (os.take k) startState

/-- The classic eight-line tic-tac-toe win check: some row, column or
diagonal has all three of its cells labelled `L`. -/
def lineCells : List (List (Nat × Nat)) :=
  [ [(0, 0), (0, 1), (0, 2)], [(1, 0), (1, 1), (1, 2)], [(2, 0), (2, 1), (2, 2)],
    [(0, 0), (1, 0), (2, 0)], [(0, 1), (1, 1), (2, 1)], [(0, 2), (1, 2), (2, 2)],
    [(0, 0), (1, 1), (2, 2)], [(0, 2), (1, 1), (2, 0)] ]

/-- The specification-side win predicate for comparison with
`threeInARow`. -/
def classicWin (b : Board) (L : Label) : Bool :=
  lineCells.any (fun line => line.all (fun p => decide (b (Node.cell p.1 p.2) = L)))

/-! ## Basic field-preservation lemmas -/

@[simp]
lemma robberWin_board (s : GameState) : (robberWin s).board = s.board := by
  unfold robberWin; split <;> rfl

@[simp]
lemma robberWin_round (s : GameState) : (robberWin s).round = s.round := by
  unfold robberWin; split <;> rfl

@[simp]
lemma robberWin_status (s : GameState) : (robberWin s).status = s.status := by
  unfold robberWin; split <;> rfl

@[simp]
lemma copsWin_board (s : GameState) : (copsWin s).board = s.board := by
  unfold copsWin; split <;> rfl

@[simp]
lemma copsWin_round (s : GameState) : (copsWin s).round = s.round := by
  unfold copsWin; split <;> rfl

@[simp]
lemma copsWin_status (s : GameState) : (copsWin s).status = s.status := by
  unfold copsWin; split <;> rfl

@[simp]
lemma setStatus_board (st : String) (s : GameState) : (setStatus st s).board = s.board := by
  unfold setStatus; split <;> rfl

@[simp]
lemma setStatus_round (st : String) (s : GameState) : (setStatus st s).round = s.round := by
  unfold setStatus; split <;> rfl

@[simp]
lemma setStatus_result (st : String) (s : GameState) : (setStatus st s).result = s.result := by
  unfold setStatus; split <;> rfl

/-! ## Frozen states: a decided game never changes result or status again -/

/-- The game is decided: the result latch and the status latch have both
fired. -/
def Frozen (s : GameState) : Prop :=
  s.result ≠ 0 ∧ s.status ≠ "Game continues"

lemma robberWin_frozen {s : GameState} (h : s.result ≠ 0) : robberWin s = s := by
  unfold robberWin; rw [if_neg h]

lemma copsWin_frozen {s : GameState} (h : s.result ≠ 0) : copsWin s = s := by
  unfold copsWin; rw [if_neg h]

lemma setStatus_frozen {s : GameState} (st : String)
    (h : s.status ≠ "Game continues") : setStatus st s = s := by
  unfold setStatus; rw [if_neg h]

lemma outcome_rw_frozen {s : GameState} (st : String) (h : Frozen s) :
    setStatus st (robberWin s) = s := by
  rw [robberWin_frozen h.1, setStatus_frozen st h.2]

lemma outcome_cw_frozen {s : GameState} (st : String) (h : Frozen s) :
    setStatus st (copsWin s) = s := by
  rw [copsWin_frozen h.1, setStatus_frozen st h.2]

/-- Result and status agree between two states (the board and round may
differ). -/
def SameRS (s t : GameState) : Prop :=
  t.result = s.result ∧ t.status = s.status

lemma sameRS_refl (s : GameState) : SameRS s s := ⟨rfl, rfl⟩

lemma sameRS_trans {s t u : GameState} (h1 : SameRS s t) (h2 : SameRS t u) : SameRS s u :=
  ⟨h2.1.trans h1.1, h2.2.trans h1.2⟩

lemma frozen_of_sameRS {s t : GameState} (h : Frozen s) (hrs : SameRS s t) : Frozen t :=
  ⟨hrs.1 ▸ h.1, hrs.2 ▸ h.2⟩

lemma copsInvalidStep_frozen {s : GameState} (h : Frozen s) : copsInvalidStep s = s := by
  unfold copsInvalidStep; exact outcome_rw_frozen _ h

lemma robberInvalidStep_frozen {s : GameState} (h : Frozen s) : robberInvalidStep s = s := by
  unfold robberInvalidStep; exact outcome_cw_frozen _ h

lemma setCopPositions_sameRS {s : GameState} (m : Option (Int × Int)) (h : Frozen s) :
    SameRS s (setCopPositions m s) := by
  unfold setCopPositions
  match m with
  | Option.none =>
      rw [copsInvalidStep_frozen h]
      exact sameRS_refl s
  | Option.some (i, j) =>
      dsimp only
      split
      · rw [copsInvalidStep_frozen h]
        exact sameRS_refl s
      · exact ⟨rfl, rfl⟩

lemma setRobberPosition_sameRS {s : GameState} (m : Option (Int × Int)) (h : Frozen s) :
    SameRS s (setRobberPosition m s) := by
  unfold setRobberPosition
  match m with
  | Option.none =>
      rw [robberInvalidStep_frozen h]
      exact sameRS_refl s
  | Option.some (i, j) =>
      dsimp only
      split
      · rw [robberInvalidStep_frozen h]
        exact sameRS_refl s
      · exact ⟨rfl, rfl⟩

lemma copsExnCheck_frozen {s : GameState} (o : StepOutcome) (h : Frozen s) :
    copsExnCheck o s = s := by
  unfold copsExnCheck
  match o with
  | StepOutcome.exn => exact outcome_rw_frozen _ h
  | StepOutcome.move i j => rfl
  | StepOutcome.noMove => rfl

lemma robberExnCheck_frozen {s : GameState} (o : StepOutcome) (h : Frozen s) :
    robberExnCheck o s = s := by
  unfold robberExnCheck
  match o with
  | StepOutcome.exn => exact outcome_cw_frozen _ h
  | StepOutcome.move i j => rfl
  | StepOutcome.noMove => rfl

lemma copWinCheck_frozen {s : GameState} (h : Frozen s) : copWinCheck s = s := by
  unfold copWinCheck copsThreeInARow
  split
  · exact outcome_cw_frozen _ h
  · rfl

lemma robberWinCheck_frozen {s : GameState} (h : Frozen s) : robberWinCheck s = s := by
  unfold robberWinCheck robberThreeInARow
  split
  · exact outcome_rw_frozen _ h
  · rfl

lemma tieCheck_frozen {s : GameState} (h : Frozen s) : tieCheck s = s := by
  unfold tieCheck tie
  split
  · exact outcome_rw_frozen _ h
  · rfl

lemma copsStep_sameRS {s : GameState} (o : StepOutcome) (h : Frozen s) :
    SameRS s (copsStep o s) := by
  unfold copsStep
  rw [copsExnCheck_frozen o h]
  have h2 := setCopPositions_sameRS (s := s) (moveOf o) h
  have hf2 := frozen_of_sameRS h h2
  rw [copWinCheck_frozen hf2, tieCheck_frozen hf2]
  exact h2

lemma robberStep_sameRS {s : GameState} (o : StepOutcome) (h : Frozen s) :
    SameRS s (robberStep o s) := by
  unfold robberStep
  rw [robberExnCheck_frozen o h]
  have h2 := setRobberPosition_sameRS (s := s) (moveOf o) h
  have hf2 := frozen_of_sameRS h h2
  rw [robberWinCheck_frozen hf2]
  exact h2

lemma bumpRound_sameRS (s : GameState) : SameRS s (bumpRound s) := ⟨rfl, rfl⟩

lemma nextRound_sameRS {s : GameState} (o : StepOutcome) (h : Frozen s) :
    SameRS s (nextRound o s) := by
  unfold nextRound
  have hb : Frozen (bumpRound s) := frozen_of_sameRS h (bumpRound_sameRS s)
  split
  · exact sameRS_trans (bumpRound_sameRS s) (copsStep_sameRS o hb)
  · exact sameRS_trans (bumpRound_sameRS s) (robberStep_sameRS o hb)

lemma runRounds_sameRS {s : GameState} (os : List StepOutcome) (h : Frozen s) :
    SameRS s (runRounds os s) := by
  induction os generalizing s with
  | nil => exact sameRS_refl s
  | cons o os ih =>
      have h1 := nextRound_sameRS o h
      exact sameRS_trans h1 (ih (frozen_of_sameRS h h1))

/-! ## The result latch and the status latch fire together -/

/-- The two latches agree: the result is still `0` exactly when the
status is still the initial one. -/
def Synced (s : GameState) : Prop :=
  s.result = 0 ↔ s.status = "Game continues"

lemma synced_outcome_rw {s : GameState} (st : String) (hst : st ≠ "Game continues")
    (h : Synced s) : Synced (setStatus st (robberWin s)) := by
  by_cases h0 : s.result = 0
  · have hc := h.mp h0
    simp [Synced, robberWin, setStatus, h0, hc, hst]
  · have hc : s.status ≠ "Game continues" := fun hh => h0 (h.mpr hh)
    rw [robberWin_frozen h0, setStatus_frozen st hc]
    exact h

lemma synced_outcome_cw {s : GameState} (st : String) (hst : st ≠ "Game continues")
    (h : Synced s) : Synced (setStatus st (copsWin s)) := by
  by_cases h0 : s.result = 0
  · have hc := h.mp h0
    simp [Synced, copsWin, setStatus, h0, hc, hst]
  · have hc : s.status ≠ "Game continues" := fun hh => h0 (h.mpr hh)
    rw [copsWin_frozen h0, setStatus_frozen st hc]
    exact h

lemma synced_setCopPositions {s : GameState} (m : Option (Int × Int)) (h : Synced s) :
    Synced (setCopPositions m s) := by
  unfold setCopPositions
  match m with
  | Option.none => exact synced_outcome_rw _ (by decide) h
  | Option.some (i, j) =>
      dsimp only
      split
      · exact synced_outcome_rw _ (by decide) h
      · exact h

lemma synced_setRobberPosition {s : GameState} (m : Option (Int × Int)) (h : Synced s) :
    Synced (setRobberPosition m s) := by
  unfold setRobberPosition
  match m with
  | Option.none => exact synced_outcome_cw _ (by decide) h
  | Option.some (i, j) =>
      dsimp only
      split
      · exact synced_outcome_cw _ (by decide) h
      · exact h

lemma synced_copsExnCheck {s : GameState} (o : StepOutcome) (h : Synced s) :
    Synced (copsExnCheck o s) := by
  unfold copsExnCheck
  match o with
  | StepOutcome.exn => exact synced_outcome_rw _ (by decide) h
  | StepOutcome.move i j => exact h
  | StepOutcome.noMove => exact h

lemma synced_robberExnCheck {s : GameState} (o : StepOutcome) (h : Synced s) :
    Synced (robberExnCheck o s) := by
  unfold robberExnCheck
  match o with
  | StepOutcome.exn => exact synced_outcome_cw _ (by decide) h
  | StepOutcome.move i j => exact h
  | StepOutcome.noMove => exact h

lemma synced_copWinCheck {s : GameState} (h : Synced s) : Synced (copWinCheck s) := by
  unfold copWinCheck copsThreeInARow
  split
  · exact synced_outcome_cw _ (by decide) h
  · exact h

lemma synced_robberWinCheck {s : GameState} (h : Synced s) : Synced (robberWinCheck s) := by
  unfold robberWinCheck robberThreeInARow
  split
  · exact synced_outcome_rw _ (by decide) h
  · exact h

lemma synced_tieCheck {s : GameState} (h : Synced s) : Synced (tieCheck s) := by
  unfold tieCheck tie
  split
  · exact synced_outcome_rw _ (by decide) h
  · exact h

lemma synced_copsStep {s : GameState} (o : StepOutcome) (h : Synced s) :
    Synced (copsStep o s) :=
  synced_tieCheck (synced_copWinCheck
    (synced_setCopPositions _ (synced_copsExnCheck o h)))

lemma synced_robberStep {s : GameState} (o : StepOutcome) (h : Synced s) :
    Synced (robberStep o s) :=
  synced_robberWinCheck (synced_setRobberPosition _ (synced_robberExnCheck o h))

lemma synced_nextRound {s : GameState} (o : StepOutcome) (h : Synced s) :
    Synced (nextRound o s) := by
  unfold nextRound
  have hb : Synced (bumpRound s) := h
  split
  · exact synced_copsStep o hb
  · exact synced_robberStep o hb

lemma synced_runRounds {s : GameState} (os : List StepOutcome) (h : Synced s) :
    Synced (runRounds os s) := by
  induction os generalizing s with
  | nil => exact h
  | cons o os ih => exact ih (synced_nextRound o h)

lemma synced_initState : Synced initState := by
  simp [Synced, initState]

lemma synced_gameInit (copsOk robberOk : Bool) : Synced (gameInit copsOk robberOk).state := by
  unfold gameInit
  split
  · exact synced_outcome_rw _ (by decide) synced_initState
  · split
    · exact synced_outcome_cw _ (by decide) synced_initState
    · exact synced_initState

lemma synced_startFrom (copsOk robberOk : Bool) (os : List StepOutcome) :
    Synced (startFrom copsOk robberOk os) :=
  synced_runRounds os (synced_gameInit copsOk robberOk)

/-! ## Board and round preservation of the outcome operations -/

@[simp]
lemma copsThreeInARow_board (s : GameState) : (copsThreeInARow s).board = s.board := by
  simp [copsThreeInARow]

@[simp]
lemma tie_board (s : GameState) : (tie s).board = s.board := by
  simp [tie]

@[simp]
lemma robberThreeInARow_board (s : GameState) : (robberThreeInARow s).board = s.board := by
  simp [robberThreeInARow]

@[simp]
lemma copsInvalidStep_board (s : GameState) : (copsInvalidStep s).board = s.board := by
  simp [copsInvalidStep]

@[simp]
lemma robberInvalidStep_board (s : GameState) : (robberInvalidStep s).board = s.board := by
  simp [robberInvalidStep]

@[simp]
lemma copsException_board (s : GameState) : (copsException s).board = s.board := by
  simp [copsException]

@[simp]
lemma robberException_board (s : GameState) : (robberException s).board = s.board := by
  simp [robberException]

@[simp]
lemma copWinCheck_board (s : GameState) : (copWinCheck s).board = s.board := by
  unfold copWinCheck; split <;> simp

@[simp]
lemma robberWinCheck_board (s : GameState) : (robberWinCheck s).board = s.board := by
  unfold robberWinCheck; split <;> simp

@[simp]
lemma tieCheck_board (s : GameState) : (tieCheck s).board = s.board := by
  unfold tieCheck; split <;> simp

@[simp]
lemma copsExnCheck_board (o : StepOutcome) (s : GameState) :
    (copsExnCheck o s).board = s.board := by
  cases o <;> simp [copsExnCheck]

@[simp]
lemma robberExnCheck_board (o : StepOutcome) (s : GameState) :
    (robberExnCheck o s).board = s.board := by
  cases o <;> simp [robberExnCheck]

@[simp]
lemma copsThreeInARow_round (s : GameState) : (copsThreeInARow s).round = s.round := by
  simp [copsThreeInARow]

@[simp]
lemma tie_round (s : GameState) : (tie s).round = s.round := by
  simp [tie]

@[simp]
lemma robberThreeInARow_round (s : GameState) : (robberThreeInARow s).round = s.round := by
  simp [robberThreeInARow]

@[simp]
lemma copsInvalidStep_round (s : GameState) : (copsInvalidStep s).round = s.round := by
  simp [copsInvalidStep]

@[simp]
lemma robberInvalidStep_round (s : GameState) : (robberInvalidStep s).round = s.round := by
  simp [robberInvalidStep]

@[simp]
lemma copsException_round (s : GameState) : (copsException s).round = s.round := by
  simp [copsException]

@[simp]
lemma robberException_round (s : GameState) : (robberException s).round = s.round := by
  simp [robberException]

@[simp]
lemma setCopPositions_round (m : Option (Int × Int)) (s : GameState) :
    (setCopPositions m s).round = s.round := by
  unfold setCopPositions
  match m with
  | Option.none => simp
  | Option.some (i, j) => dsimp only; split <;> simp

@[simp]
lemma setRobberPosition_round (m : Option (Int × Int)) (s : GameState) :
    (setRobberPosition m s).round = s.round := by
  unfold setRobberPosition
  match m with
  | Option.none => simp
  | Option.some (i, j) => dsimp only; split <;> simp

@[simp]
lemma copsExnCheck_round (o : StepOutcome) (s : GameState) :
    (copsExnCheck o s).round = s.round := by
  cases o <;> simp [copsExnCheck]

@[simp]
lemma robberExnCheck_round (o : StepOutcome) (s : GameState) :
    (robberExnCheck o s).round = s.round := by
  cases o <;> simp [robberExnCheck]

@[simp]
lemma copsStep_round (o : StepOutcome) (s : GameState) :
    (copsStep o s).round = s.round := by
  unfold copsStep tieCheck copWinCheck
  split <;> split <;> simp

@[simp]
lemma robberStep_round (o : StepOutcome) (s : GameState) :
    (robberStep o s).round = s.round := by
  unfold robberStep robberWinCheck
  split <;> simp

/-! ## Transitions out of a continuing state -/

lemma outcome_rw_continuing {s : GameState} (st : String)
    (hres : s.result = 0) (hst : s.status = "Game continues") :
    setStatus st (robberWin s) = { s with result := -1, status := st } := by
  unfold robberWin setStatus
  rw [if_pos hres]
  dsimp only
  rw [if_pos hst]

lemma outcome_cw_continuing {s : GameState} (st : String)
    (hres : s.result = 0) (hst : s.status = "Game continues") :
    setStatus st (copsWin s) = { s with result := 1, status := st } := by
  unfold copsWin setStatus
  rw [if_pos hres]
  dsimp only
  rw [if_pos hst]

lemma setCopPositions_valid {s : GameState} {i j : Int}
    (h : validFor s (StepOutcome.move i j) = true) :
    setCopPositions (Option.some (i, j)) s
      = { s with board := setCell s.board i.toNat j.toNat Label.C } := by
  have H : 0 ≤ i ∧ i ≤ 2 ∧ 0 ≤ j ∧ j ≤ 2
      ∧ s.board (Node.cell i.toNat j.toNat) = Label.blank := by
    simpa [validFor] using h
  unfold setCopPositions
  dsimp only
  rw [if_neg]
  simp only [not_or, not_lt, ne_eq, not_not]
  exact ⟨H.1, H.2.2.1, H.2.1, H.2.2.2.1, H.2.2.2.2⟩

lemma setRobberPosition_valid {s : GameState} {i j : Int}
    (h : validFor s (StepOutcome.move i j) = true) :
    setRobberPosition (Option.some (i, j)) s
      = { s with board := setCell s.board i.toNat j.toNat Label.R } := by
  have H : 0 ≤ i ∧ i ≤ 2 ∧ 0 ≤ j ∧ j ≤ 2
      ∧ s.board (Node.cell i.toNat j.toNat) = Label.blank := by
    simpa [validFor] using h
  unfold setRobberPosition
  dsimp only
  rw [if_neg]
  simp only [not_or, not_lt, ne_eq, not_not]
  exact ⟨H.1, H.2.2.1, H.2.1, H.2.2.2.1, H.2.2.2.2⟩

lemma frozen_mk (s : GameState) (r : Int) (st : String) (hr : r ≠ 0)
    (hst : st ≠ "Game continues") :
    Frozen ({ s with result := r, status := st } : GameState) :=
  ⟨hr, hst⟩

lemma copsStep_noMove_continuing {s : GameState}
    (hres : s.result = 0) (hst : s.status = "Game continues") :
    copsStep StepOutcome.noMove s
      = { s with result := -1, status := "Cops invalid step" } := by
  have hfr := frozen_mk s (-1) "Cops invalid step" (by decide) (by decide)
  have hinv : setCopPositions (moveOf StepOutcome.noMove)
      (copsExnCheck StepOutcome.noMove s)
      = { s with result := -1, status := "Cops invalid step" } := by
    show copsInvalidStep s = _
    unfold copsInvalidStep
    exact outcome_rw_continuing _ hres hst
  unfold copsStep
  rw [hinv, copWinCheck_frozen hfr, tieCheck_frozen hfr]

lemma robberStep_noMove_continuing {s : GameState}
    (hres : s.result = 0) (hst : s.status = "Game continues") :
    robberStep StepOutcome.noMove s
      = { s with result := 1, status := "Robber invalid step" } := by
  have hfr := frozen_mk s 1 "Robber invalid step" (by decide) (by decide)
  have hinv : setRobberPosition (moveOf StepOutcome.noMove)
      (robberExnCheck StepOutcome.noMove s)
      = { s with result := 1, status := "Robber invalid step" } := by
    show robberInvalidStep s = _
    unfold robberInvalidStep
    exact outcome_cw_continuing _ hres hst
  unfold robberStep
  rw [hinv, robberWinCheck_frozen hfr]

lemma copsStep_badMove_continuing {s : GameState} {i j : Int}
    (hres : s.result = 0) (hst : s.status = "Game continues")
    (hbad : i < 0 ∨ j < 0 ∨ 2 < i ∨ 2 < j
      ∨ s.board (Node.cell i.toNat j.toNat) ≠ Label.blank) :
    copsStep (StepOutcome.move i j) s
      = { s with result := -1, status := "Cops invalid step" } := by
  have hfr := frozen_mk s (-1) "Cops invalid step" (by decide) (by decide)
  have hinv : setCopPositions (moveOf (StepOutcome.move i j))
      (copsExnCheck (StepOutcome.move i j) s)
      = { s with result := -1, status := "Cops invalid step" } := by
    show setCopPositions (Option.some (i, j)) s = _
    unfold setCopPositions
    dsimp only
    rw [if_pos hbad]
    unfold copsInvalidStep
    exact outcome_rw_continuing _ hres hst
  unfold copsStep
  rw [hinv, copWinCheck_frozen hfr, tieCheck_frozen hfr]

lemma robberStep_badMove_continuing {s : GameState} {i j : Int}
    (hres : s.result = 0) (hst : s.status = "Game continues")
    (hbad : i < 0 ∨ j < 0 ∨ 2 < i ∨ 2 < j
      ∨ s.board (Node.cell i.toNat j.toNat) ≠ Label.blank) :
    robberStep (StepOutcome.move i j) s
      = { s with result := 1, status := "Robber invalid step" } := by
  have hfr := frozen_mk s 1 "Robber invalid step" (by decide) (by decide)
  have hinv : setRobberPosition (moveOf (StepOutcome.move i j))
      (robberExnCheck (StepOutcome.move i j) s)
      = { s with result := 1, status := "Robber invalid step" } := by
    show setRobberPosition (Option.some (i, j)) s = _
    unfold setRobberPosition
    dsimp only
    rw [if_pos hbad]
    unfold robberInvalidStep
    exact outcome_cw_continuing _ hres hst
  unfold robberStep
  rw [hinv, robberWinCheck_frozen hfr]

lemma copsStep_exn_continuing {s : GameState}
    (hres : s.result = 0) (hst : s.status = "Game continues") :
    copsStep StepOutcome.exn s
      = { s with result := -1, status := "Exception in cops call" } := by
  have hfr := frozen_mk s (-1) "Exception in cops call" (by decide) (by decide)
  have hexn : copsExnCheck StepOutcome.exn s
      = { s with result := -1, status := "Exception in cops call" } := by
    show copsException s = _
    unfold copsException
    exact outcome_rw_continuing _ hres hst
  have hset : setCopPositions (moveOf StepOutcome.exn)
      ({ s with result := -1, status := "Exception in cops call" } : GameState)
      = { s with result := -1, status := "Exception in cops call" } := by
    show copsInvalidStep _ = _
    exact copsInvalidStep_frozen hfr
  unfold copsStep
  rw [hexn, hset, copWinCheck_frozen hfr, tieCheck_frozen hfr]

lemma robberStep_exn_continuing {s : GameState}
    (hres : s.result = 0) (hst : s.status = "Game continues") :
    robberStep StepOutcome.exn s
      = { s with result := 1, status := "Exception in robber call" } := by
  have hfr := frozen_mk s 1 "Exception in robber call" (by decide) (by decide)
  have hexn : robberExnCheck StepOutcome.exn s
      = { s with result := 1, status := "Exception in robber call" } := by
    show robberException s = _
    unfold robberException
    exact outcome_cw_continuing _ hres hst
  have hset : setRobberPosition (moveOf StepOutcome.exn)
      ({ s with result := 1, status := "Exception in robber call" } : GameState)
      = { s with result := 1, status := "Exception in robber call" } := by
    show robberInvalidStep _ = _
    exact robberInvalidStep_frozen hfr
  unfold robberStep
  rw [hexn, hset, robberWinCheck_frozen hfr]

lemma copsStep_board (o : StepOutcome) (s : GameState) :
    (copsStep o s).board
      = (setCopPositions (moveOf o) (copsExnCheck o s)).board := by
  unfold copsStep; simp

lemma robberStep_board (o : StepOutcome) (s : GameState) :
    (robberStep o s).board
      = (setRobberPosition (moveOf o) (robberExnCheck o s)).board := by
  unfold robberStep; simp

/-- Claim C1: in every reachable game state (any construction outcome,
any sequence of `next_round()` calls), once `result()` is non-zero, no
further sequence of `next_round()` calls changes `result()` or
`status()`: the first decisive event is latched and all later
outcome-setting attempts are no-ops. -/
theorem c1_outcome_latched (copsOk robberOk : Bool) (os more : List StepOutcome)
    (h : (startFrom copsOk robberOk os).result ≠ 0) :
    (runRounds more (startFrom copsOk robberOk os)).result
        = (startFrom copsOk robberOk os).result
    ∧ (runRounds more (startFrom copsOk robberOk os)).status
        = (startFrom copsOk robberOk os).status := by
  have hsy := synced_startFrom copsOk robberOk os
  exact runRounds_sameRS more ⟨h, fun hc => h (hsy.mpr hc)⟩

/-- Witness for C1: a game whose cops factory raised has result `-1`,
and one further round leaves result and status unchanged. -/
theorem c1_outcome_latched_witness :
    (startFrom false true List.nil).result ≠ 0
    ∧ ((runRounds [StepOutcome.noMove] (startFrom false true List.nil)).result
          = (startFrom false true List.nil).result
        ∧ (runRounds [StepOutcome.noMove] (startFrom false true List.nil)).status
          = (startFrom false true List.nil).status) :=
  ⟨by decide, c1_outcome_latched false true List.nil [StepOutcome.noMove] (by decide)⟩

/-- Claim C10: in every reachable state of a `Game`, `result()` is `0`
if and only if `status()` is `"Game continues"`: the result latch and
the status latch always fire on the same transition. -/
theorem c10_result_zero_iff_status_continues (copsOk robberOk : Bool)
    (os : List StepOutcome) :
    (startFrom copsOk robberOk os).result = 0
      ↔ (startFrom copsOk robberOk os).status = "Game continues" :=
  synced_startFrom copsOk robberOk os

/-- Claim C4: on a ply of a continuing game, an absent move, an
out-of-range move, or a move onto an occupied cell labels no cell and
makes the opposing side win with the matching invalid-step status
(result `-1`, `Cops invalid step` on a cops ply; result `1`,
`Robber invalid step` on a robber ply); otherwise the target cell is
labelled with the acting side's mark. -/
theorem c4_move_validation (s : GameState) (i j : Int)
    (hres : s.result = 0) (hst : s.status = "Game continues") :
    ((copsStep StepOutcome.noMove s).board = s.board
      ∧ (copsStep StepOutcome.noMove s).result = -1
      ∧ (copsStep StepOutcome.noMove s).status = "Cops invalid step")
    ∧ ((i < 0 ∨ j < 0 ∨ 2 < i ∨ 2 < j
          ∨ s.board (Node.cell i.toNat j.toNat) ≠ Label.blank) →
        (copsStep (StepOutcome.move i j) s).board = s.board
        ∧ (copsStep (StepOutcome.move i j) s).result = -1
        ∧ (copsStep (StepOutcome.move i j) s).status = "Cops invalid step")
    ∧ (¬(i < 0 ∨ j < 0 ∨ 2 < i ∨ 2 < j
          ∨ s.board (Node.cell i.toNat j.toNat) ≠ Label.blank) →
        (copsStep (StepOutcome.move i j) s).board
          = setCell s.board i.toNat j.toNat Label.C)
    ∧ ((robberStep StepOutcome.noMove s).board = s.board
      ∧ (robberStep StepOutcome.noMove s).result = 1
      ∧ (robberStep StepOutcome.noMove s).status = "Robber invalid step")
    ∧ ((i < 0 ∨ j < 0 ∨ 2 < i ∨ 2 < j
          ∨ s.board (Node.cell i.toNat j.toNat) ≠ Label.blank) →
        (robberStep (StepOutcome.move i j) s).board = s.board
        ∧ (robberStep (StepOutcome.move i j) s).result = 1
        ∧ (robberStep (StepOutcome.move i j) s).status = "Robber invalid step")
    ∧ (¬(i < 0 ∨ j < 0 ∨ 2 < i ∨ 2 < j
          ∨ s.board (Node.cell i.toNat j.toNat) ≠ Label.blank) →
        (robberStep (StepOutcome.move i j) s).board
          = setCell s.board i.toNat j.toNat Label.R) := by
  refine ⟨?_, ?_, ?_, ?_, ?_, ?_⟩
  · rw [copsStep_noMove_continuing hres hst]
    exact ⟨rfl, rfl, rfl⟩
  · intro hbad
    rw [copsStep_badMove_continuing hres hst hbad]
    exact ⟨rfl, rfl, rfl⟩
  · intro hgood
    rw [copsStep_board]
    show (setCopPositions (Option.some (i, j)) s).board = _
    unfold setCopPositions
    dsimp only
    rw [if_neg hgood]
  · rw [robberStep_noMove_continuing hres hst]
    exact ⟨rfl, rfl, rfl⟩
  · intro hbad
    rw [robberStep_badMove_continuing hres hst hbad]
    exact ⟨rfl, rfl, rfl⟩
  · intro hgood
    rw [robberStep_board]
    show (setRobberPosition (Option.some (i, j)) s).board = _
    unfold setRobberPosition
    dsimp only
    rw [if_neg hgood]

/-- Witness for C4: a first-ply cops move of `(5, 5)` gives result `-1`
and status `Cops invalid step`; a robber move onto the cell just
labelled by the cops gives result `1` and status `Robber invalid
step`. -/
theorem c4_move_validation_witness :
    (copsStep (StepOutcome.move 5 5) initState).result = -1
    ∧ (copsStep (StepOutcome.move 5 5) initState).status = "Cops invalid step"
    ∧ (robberStep (StepOutcome.move 0 0) (copsStep (StepOutcome.move 0 0) initState)).result = 1
    ∧ (robberStep (StepOutcome.move 0 0) (copsStep (StepOutcome.move 0 0) initState)).status
        = "Robber invalid step" := by
  have h1 := c4_move_validation initState 5 5 rfl rfl
  have h2 := c4_move_validation (copsStep (StepOutcome.move 0 0) initState) 0 0
    (by decide) (by decide)
  exact ⟨(h1.2.1 (by decide)).2.1, (h1.2.1 (by decide)).2.2,
    (h2.2.2.2.2.1 (by decide)).2.1, (h2.2.2.2.2.1 (by decide)).2.2⟩

/-- Claim C5: if the acting engine's `step` call raises on a ply of a
continuing game, the opposing side wins with the corresponding
exception status, and the validation of the then-absent move does not
replace that status, because the exception transition latched first. -/
theorem c5_step_exception (s : GameState)
    (hres : s.result = 0) (hst : s.status = "Game continues") :
    (copsStep StepOutcome.exn s).result = -1
    ∧ (copsStep StepOutcome.exn s).status = "Exception in cops call"
    ∧ (robberStep StepOutcome.exn s).result = 1
    ∧ (robberStep StepOutcome.exn s).status = "Exception in robber call" := by
  rw [copsStep_exn_continuing hres hst, robberStep_exn_continuing hres hst]
  exact ⟨rfl, rfl, rfl, rfl⟩

/-- Witness for C5: both exception transitions evaluated on the fresh
game state. -/
theorem c5_step_exception_witness :
    (copsStep StepOutcome.exn initState).result = -1
    ∧ (copsStep StepOutcome.exn initState).status = "Exception in cops call"
    ∧ (robberStep StepOutcome.exn initState).result = 1
    ∧ (robberStep StepOutcome.exn initState).status = "Exception in robber call" :=
  c5_step_exception initState rfl rfl

/-! ## Which statuses a robber ply can write, and check precedence -/

lemma setStatus_status_cases (st : String) (s : GameState) :
    (setStatus st s).status = s.status ∨ (setStatus st s).status = st := by
  unfold setStatus
  split
  · right; rfl
  · left; rfl

lemma robberExnCheck_status_cases (o : StepOutcome) (s : GameState) :
    (robberExnCheck o s).status = s.status
    ∨ (robberExnCheck o s).status = "Exception in robber call" := by
  cases o with
  | exn =>
      show (robberException s).status = _ ∨ (robberException s).status = _
      unfold robberException
      rcases setStatus_status_cases "Exception in robber call" (copsWin s) with h | h
      · left; rw [h, copsWin_status]
      · right; exact h
  | move i j => left; rfl
  | noMove => left; rfl

lemma robberInvalidStep_status_cases (s : GameState) :
    (robberInvalidStep s).status = s.status
    ∨ (robberInvalidStep s).status = "Robber invalid step" := by
  unfold robberInvalidStep
  rcases setStatus_status_cases "Robber invalid step" (copsWin s) with h | h
  · left; rw [h, copsWin_status]
  · right; exact h

lemma setRobberPosition_status_cases (m : Option (Int × Int)) (s : GameState) :
    (setRobberPosition m s).status = s.status
    ∨ (setRobberPosition m s).status = "Robber invalid step" := by
  unfold setRobberPosition
  match m with
  | Option.none => exact robberInvalidStep_status_cases s
  | Option.some (i, j) =>
      dsimp only
      split
      · exact robberInvalidStep_status_cases s
      · left; rfl

lemma robberWinCheck_status_cases (s : GameState) :
    (robberWinCheck s).status = s.status
    ∨ (robberWinCheck s).status = "Robber escapes" := by
  unfold robberWinCheck robberThreeInARow
  split
  · rcases setStatus_status_cases "Robber escapes" (robberWin s) with h | h
    · left; rw [h, robberWin_status]
    · right; exact h
  · left; rfl

lemma robberStep_status_cases (o : StepOutcome) (s : GameState) :
    (robberStep o s).status = s.status
    ∨ (robberStep o s).status = "Exception in robber call"
    ∨ (robberStep o s).status = "Robber invalid step"
    ∨ (robberStep o s).status = "Robber escapes" := by
  unfold robberStep
  rcases robberWinCheck_status_cases
      (setRobberPosition (moveOf o) (robberExnCheck o s)) with h3 | h3
  · rcases setRobberPosition_status_cases (moveOf o) (robberExnCheck o s) with h2 | h2
    · rcases robberExnCheck_status_cases o s with h1 | h1
      · left; rw [h3, h2, h1]
      · right; left; rw [h3, h2, h1]
    · right; right; left; rw [h3, h2]
  · right; right; right; exact h3

lemma copsStep_validMove_win {s : GameState} {i j : Int}
    (hres : s.result = 0) (hst : s.status = "Game continues")
    (hv : validFor s (StepOutcome.move i j) = true)
    (h3 : threeInARow (setCell s.board i.toNat j.toNat Label.C) Label.C = true) :
    copsStep (StepOutcome.move i j) s
      = { s with board := setCell s.board i.toNat j.toNat Label.C,
                 result := 1, status := "Robber caught" } := by
  have hset : setCopPositions (moveOf (StepOutcome.move i j))
      (copsExnCheck (StepOutcome.move i j) s)
      = { s with board := setCell s.board i.toNat j.toNat Label.C } := by
    show setCopPositions (Option.some (i, j)) s = _
    exact setCopPositions_valid hv
  have hwin : copWinCheck ({ s with board := setCell s.board i.toNat j.toNat Label.C })
      = { s with board := setCell s.board i.toNat j.toNat Label.C,
                 result := 1, status := "Robber caught" } := by
    unfold copWinCheck
    rw [if_pos h3]
    unfold copsThreeInARow
    exact outcome_cw_continuing _ hres hst
  have hfr := frozen_mk ({ s with board := setCell s.board i.toNat j.toNat Label.C })
    1 "Robber caught" (by decide) (by decide)
  unfold copsStep
  rw [hset, hwin, tieCheck_frozen hfr]

/-- Claim C8: the tie check only runs on cops plies and only after the
cops three-in-a-row check: a robber ply of a continuing game never
produces status `Cops shift ends`, and a valid cops move that completes
a cops three-in-a-row latches result `1` and status `Robber caught`
even when it also fills the last cell. -/
theorem c8_win_check_precedes_tie (s : GameState) (o : StepOutcome)
    (hres : s.result = 0) (hst : s.status = "Game continues") :
    ((robberStep o s).status = "Cops shift ends" → False)
    ∧ (validFor s o = true →
        threeInARow (copsStep o s).board Label.C = true →
        (copsStep o s).result = 1 ∧ (copsStep o s).status = "Robber caught") := by
  constructor
  · intro hcse
    rcases robberStep_status_cases o s with h | h | h | h <;> rw [hcse] at h
    · rw [hst] at h
      exact absurd h (by decide)
    · exact absurd h (by decide)
    · exact absurd h (by decide)
    · exact absurd h (by decide)
  · intro hv h3
    cases o with
    | noMove => simp [validFor] at hv
    | exn => simp [validFor] at hv
    | move i j =>
        have hb : (copsStep (StepOutcome.move i j) s).board
            = setCell s.board i.toNat j.toNat Label.C := by
          rw [copsStep_board]
          show (setCopPositions (Option.some (i, j)) s).board = _
          rw [setCopPositions_valid hv]
        rw [hb] at h3
        rw [copsStep_validMove_win hres hst hv h3]
        exact ⟨rfl, rfl⟩

/-- A continuing mid-game position: cops hold `(0,0)`, `(0,1)`,
`(1,2)`, `(2,1)`, the robber holds `(1,0)`, `(1,1)`, `(2,0)`, `(2,2)`,
and only `(0,2)` is blank. -/
def c8Board : Board := fun v =>
  if v = Node.cell 0 0 ∨ v = Node.cell 0 1 ∨ v = Node.cell 1 2 ∨ v = Node.cell 2 1 then
    Label.C
  else if v = Node.cell 1 0 ∨ v = Node.cell 1 1 ∨ v = Node.cell 2 0 ∨ v = Node.cell 2 2 then
    Label.R
  else Label.blank

/-- The game state around `c8Board` after 8 plies. -/
def c8State : GameState :=
  { board := c8Board, result := 0, round := 7, status := "Game continues" }

/-- Witness for C8: the cops move `(0,2)` completes row 0 and fills the
last blank cell; the latched outcome is the cops win, not the tie. -/
theorem c8_win_check_precedes_tie_witness :
    ((copsStep (StepOutcome.move 0 2) c8State).result = 1
      ∧ (copsStep (StepOutcome.move 0 2) c8State).status = "Robber caught")
    ∧ gameTied (copsStep (StepOutcome.move 0 2) c8State).board = true := by
  have h := (c8_win_check_precedes_tie c8State (StepOutcome.move 0 2) rfl rfl).2
    (by decide) (by decide)
  exact ⟨h, by decide⟩

/-! ## The uniform neighbour check coincides with the eight-line check -/

lemma adj_dia0 : adj (Node.dia 0) = [Node.cell 0 0, Node.cell 1 1, Node.cell 2 2] := by
  decide

lemma adj_dia1 : adj (Node.dia 1) = [Node.cell 0 2, Node.cell 1 1, Node.cell 2 0] := by
  decide

lemma adj_row0 : adj (Node.row 0) = [Node.cell 0 0, Node.cell 0 1, Node.cell 0 2] := by
  decide

lemma adj_row1 : adj (Node.row 1) = [Node.cell 1 0, Node.cell 1 1, Node.cell 1 2] := by
  decide

lemma adj_row2 : adj (Node.row 2) = [Node.cell 2 0, Node.cell 2 1, Node.cell 2 2] := by
  decide

lemma adj_col0 : adj (Node.col 0) = [Node.cell 0 0, Node.cell 1 0, Node.cell 2 0] := by
  decide

lemma adj_col1 : adj (Node.col 1) = [Node.cell 0 1, Node.cell 1 1, Node.cell 2 1] := by
  decide

lemma adj_col2 : adj (Node.col 2) = [Node.cell 0 2, Node.cell 1 2, Node.cell 2 2] := by
  decide

lemma adj_c00 : adj (Node.cell 0 0) = [Node.row 0, Node.col 0, Node.dia 0] := by
  decide

lemma adj_c01 : adj (Node.cell 0 1) = [Node.row 0, Node.col 1] := by
  decide

lemma adj_c02 : adj (Node.cell 0 2) = [Node.row 0, Node.col 2, Node.dia 1] := by
  decide

lemma adj_c10 : adj (Node.cell 1 0) = [Node.row 1, Node.col 0] := by
  decide

lemma adj_c11 : adj (Node.cell 1 1) = [Node.row 1, Node.col 1, Node.dia 0, Node.dia 1] := by
  decide

lemma adj_c12 : adj (Node.cell 1 2) = [Node.row 1, Node.col 2] := by
  decide

lemma adj_c20 : adj (Node.cell 2 0) = [Node.row 2, Node.col 0, Node.dia 1] := by
  decide

lemma adj_c21 : adj (Node.cell 2 1) = [Node.row 2, Node.col 1] := by
  decide

lemma adj_c22 : adj (Node.cell 2 2) = [Node.row 2, Node.col 2, Node.dia 0] := by
  decide

lemma decide_blank_ne {x L : Label} (hx : x = Label.blank) (hL : L ≠ Label.blank) :
    decide (x = L) = false := by
  subst hx
  cases L with
  | blank => exact absurd rfl hL
  | C => rfl
  | R => rfl

/-- Claim C2: when every line node is blank (as in every reachable
state) and `L` is a player label, the uniform `threeInARow` predicate
over all 16 graph nodes coincides with the classic eight-line win
check. -/
theorem c2_uniform_check_eq_classic (b : Board) (L : Label) (hL : L ≠ Label.blank)
    (hrow : ∀ i, i < 3 → b (Node.row i) = Label.blank)
    (hcol : ∀ j, j < 3 → b (Node.col j) = Label.blank)
    (hdia : ∀ k, k < 2 → b (Node.dia k) = Label.blank) :
    threeInARow b L = classicWin b L := by
  have er0 := decide_blank_ne (hrow 0 (by omega)) hL
  have er1 := decide_blank_ne (hrow 1 (by omega)) hL
  have er2 := decide_blank_ne (hrow 2 (by omega)) hL
  have ec0 := decide_blank_ne (hcol 0 (by omega)) hL
  have ec1 := decide_blank_ne (hcol 1 (by omega)) hL
  have ec2 := decide_blank_ne (hcol 2 (by omega)) hL
  have ed0 := decide_blank_ne (hdia 0 (by omega)) hL
  have ed1 := decide_blank_ne (hdia 1 (by omega)) hL
  unfold threeInARow classicWin
  simp only [allNodes, lineCells, List.any_cons, List.any_nil, List.all_cons, List.all_nil,
    adj_dia0, adj_dia1, adj_row0, adj_row1, adj_row2, adj_col0, adj_col1, adj_col2,
    adj_c00, adj_c01, adj_c02, adj_c10, adj_c11, adj_c12, adj_c20, adj_c21, adj_c22,
    er0, er1, er2, ec0, ec1, ec2, ed0, ed1,
    Bool.false_and, Bool.and_false, Bool.and_true, Bool.true_and,
    Bool.false_or, Bool.or_false]
  generalize decide (b (Node.cell 0 0) = L) = x00
  generalize decide (b (Node.cell 0 1) = L) = x01
  generalize decide (b (Node.cell 0 2) = L) = x02
  generalize decide (b (Node.cell 1 0) = L) = x10
  generalize decide (b (Node.cell 1 1) = L) = x11
  generalize decide (b (Node.cell 1 2) = L) = x12
  generalize decide (b (Node.cell 2 0) = L) = x20
  generalize decide (b (Node.cell 2 1) = L) = x21
  generalize decide (b (Node.cell 2 2) = L) = x22
  revert x00 x01 x02 x10 x11 x12 x20 x21 x22
  decide

/-- A board whose top row is all cops, line nodes blank. -/
def c2Board : Board := fun v =>
  if v = Node.cell 0 0 ∨ v = Node.cell 0 1 ∨ v = Node.cell 0 2 then Label.C
  else Label.blank

/-- Witness for C2: on a board with a cops top row, both checks agree
and both fire. -/
theorem c2_uniform_check_eq_classic_witness :
    threeInARow c2Board Label.C = classicWin c2Board Label.C
    ∧ threeInARow c2Board Label.C = true :=
  ⟨c2_uniform_check_eq_classic c2Board Label.C (by decide) (by decide) (by decide)
      (by decide),
    by decide⟩

/-! ## Drawn games: valid moves, no wins, board filled on the last cops ply -/

lemma stateAt_succ (os : List StepOutcome) (k : Nat) (hk : k < os.length) :
    stateAt os (k + 1) = nextRound (os.getD k StepOutcome.exn) (stateAt os k) := by
  unfold stateAt runRounds
  rw [List.take_succ, List.foldl_append, List.getElem?_eq_getElem hk,
    List.getD_eq_getElem?_getD, List.getElem?_eq_getElem hk]
  rfl

lemma noPlayerWin_split {b : Board} (h : noPlayerWin b = true) :
    threeInARow b Label.C = false ∧ threeInARow b Label.R = false := by
  cases h1 : threeInARow b Label.C <;> cases h2 : threeInARow b Label.R <;>
    simp_all [noPlayerWin]

lemma gameTied_false_of_blank {b : Board} {ni nj : Nat} (hi : ni < 3) (hj : nj < 3)
    (hb : b (Node.cell ni nj) = Label.blank) : gameTied b = false := by
  by_contra hc
  rw [Bool.not_eq_false] at hc
  simp only [gameTied, cellsList, List.all_cons, List.all_nil, Bool.and_true,
    Bool.and_eq_true, decide_eq_true_eq] at hc
  interval_cases ni <;> interval_cases nj <;> tauto

lemma gameTied_false_of_valid {s : GameState} {o : StepOutcome}
    (h : validFor s o = true) : gameTied s.board = false := by
  cases o with
  | noMove => simp [validFor] at h
  | exn => simp [validFor] at h
  | move i j =>
      have H : 0 ≤ i ∧ i ≤ 2 ∧ 0 ≤ j ∧ j ≤ 2
          ∧ s.board (Node.cell i.toNat j.toNat) = Label.blank := by
        simpa [validFor] using h
      exact gameTied_false_of_blank (by omega) (by omega) H.2.2.2.2

lemma validFor_bumpRound (o : StepOutcome) (s : GameState) :
    validFor (bumpRound s) o = validFor s o := by
  cases o <;> rfl

lemma copsStep_clean {s : GameState} {i j : Int}
    (hv : validFor s (StepOutcome.move i j) = true)
    (hC : threeInARow (setCell s.board i.toNat j.toNat Label.C) Label.C = false)
    (htie : gameTied (setCell s.board i.toNat j.toNat Label.C) = false) :
    copsStep (StepOutcome.move i j) s
      = { s with board := setCell s.board i.toNat j.toNat Label.C } := by
  have hset : setCopPositions (moveOf (StepOutcome.move i j))
      (copsExnCheck (StepOutcome.move i j) s)
      = { s with board := setCell s.board i.toNat j.toNat Label.C } := by
    show setCopPositions (Option.some (i, j)) s = _
    exact setCopPositions_valid hv
  have hCne : ¬ threeInARow (setCell s.board i.toNat j.toNat Label.C) Label.C = true := by
    rw [hC]; simp
  have htne : ¬ gameTied (setCell s.board i.toNat j.toNat Label.C) = true := by
    rw [htie]; simp
  unfold copsStep
  rw [hset]
  unfold copWinCheck
  rw [if_neg hCne]
  unfold tieCheck
  rw [if_neg htne]

lemma robberStep_clean {s : GameState} {i j : Int}
    (hv : validFor s (StepOutcome.move i j) = true)
    (hR : threeInARow (setCell s.board i.toNat j.toNat Label.R) Label.R = false) :
    robberStep (StepOutcome.move i j) s
      = { s with board := setCell s.board i.toNat j.toNat Label.R } := by
  have hset : setRobberPosition (moveOf (StepOutcome.move i j))
      (robberExnCheck (StepOutcome.move i j) s)
      = { s with board := setCell s.board i.toNat j.toNat Label.R } := by
    show setRobberPosition (Option.some (i, j)) s = _
    exact setRobberPosition_valid hv
  have hRne : ¬ threeInARow (setCell s.board i.toNat j.toNat Label.R) Label.R = true := by
    rw [hR]; simp
  unfold robberStep
  rw [hset]
  unfold robberWinCheck
  rw [if_neg hRne]

lemma copsStep_tie_final {s : GameState} {i j : Int}
    (hres : s.result = 0) (hst : s.status = "Game continues")
    (hv : validFor s (StepOutcome.move i j) = true)
    (hC : threeInARow (setCell s.board i.toNat j.toNat Label.C) Label.C = false)
    (htie : gameTied (setCell s.board i.toNat j.toNat Label.C) = true) :
    copsStep (StepOutcome.move i j) s
      = { s with board := setCell s.board i.toNat j.toNat Label.C,
                 result := -1, status := "Cops shift ends" } := by
  have hset : setCopPositions (moveOf (StepOutcome.move i j))
      (copsExnCheck (StepOutcome.move i j) s)
      = { s with board := setCell s.board i.toNat j.toNat Label.C } := by
    show setCopPositions (Option.some (i, j)) s = _
    exact setCopPositions_valid hv
  have hCne : ¬ threeInARow (setCell s.board i.toNat j.toNat Label.C) Label.C = true := by
    rw [hC]; simp
  unfold copsStep
  rw [hset]
  unfold copWinCheck
  rw [if_neg hCne]
  unfold tieCheck
  rw [if_pos htie]
  unfold tie
  exact outcome_rw_continuing _ hres hst

lemma nextRound_clean {s : GameState} {o : StepOutcome}
    (hv : validFor s o = true)
    (hC : threeInARow (nextRound o s).board Label.C = false)
    (hR : threeInARow (nextRound o s).board Label.R = false)
    (htie : gameTied (nextRound o s).board = false) :
    (nextRound o s).result = s.result ∧ (nextRound o s).status = s.status
    ∧ (nextRound o s).round = s.round + 1 := by
  cases o with
  | noMove => simp [validFor] at hv
  | exn => simp [validFor] at hv
  | move i j =>
      have hv1 : validFor (bumpRound s) (StepOutcome.move i j) = true := by
        rw [validFor_bumpRound]; exact hv
      unfold nextRound at hC hR htie ⊢
      by_cases hpar : (bumpRound s).round % 2 = 0
      · rw [if_pos hpar] at hC htie ⊢
        have hb : (copsStep (StepOutcome.move i j) (bumpRound s)).board
            = setCell (bumpRound s).board i.toNat j.toNat Label.C := by
          rw [copsStep_board]
          show (setCopPositions (Option.some (i, j)) (bumpRound s)).board = _
          rw [setCopPositions_valid hv1]
        rw [hb] at hC htie
        rw [copsStep_clean hv1 hC htie]
        exact ⟨rfl, rfl, rfl⟩
      · rw [if_neg hpar] at hR ⊢
        have hb : (robberStep (StepOutcome.move i j) (bumpRound s)).board
            = setCell (bumpRound s).board i.toNat j.toNat Label.R := by
          rw [robberStep_board]
          show (setRobberPosition (Option.some (i, j)) (bumpRound s)).board = _
          rw [setRobberPosition_valid hv1]
        rw [hb] at hR
        rw [robberStep_clean hv1 hR]
        exact ⟨rfl, rfl, rfl⟩

lemma nextRound_final {s : GameState} {o : StepOutcome}
    (hres : s.result = 0) (hst : s.status = "Game continues")
    (hv : validFor s o = true)
    (hpar : (s.round + 1) % 2 = 0)
    (hC : threeInARow (nextRound o s).board Label.C = false)
    (htie : gameTied (nextRound o s).board = true) :
    (nextRound o s).result = -1 ∧ (nextRound o s).status = "Cops shift ends" := by
  cases o with
  | noMove => simp [validFor] at hv
  | exn => simp [validFor] at hv
  | move i j =>
      have hv1 : validFor (bumpRound s) (StepOutcome.move i j) = true := by
        rw [validFor_bumpRound]; exact hv
      have hpar1 : (bumpRound s).round % 2 = 0 := hpar
      unfold nextRound at hC htie ⊢
      rw [if_pos hpar1] at hC htie ⊢
      have hb : (copsStep (StepOutcome.move i j) (bumpRound s)).board
          = setCell (bumpRound s).board i.toNat j.toNat Label.C := by
        rw [copsStep_board]
        show (setCopPositions (Option.some (i, j)) (bumpRound s)).board = _
        rw [setCopPositions_valid hv1]
      rw [hb] at hC htie
      have hres1 : (bumpRound s).result = 0 := hres
      have hst1 : (bumpRound s).status = "Game continues" := hst
      rw [copsStep_tie_final hres1 hst1 hv1 hC htie]
      exact ⟨rfl, rfl⟩

/-- Claim C3: a sequence of nine valid alternating moves (cops on even
rounds, robber on odd, enforced by the referee's dispatch) after which
no node's neighbour set is ever monochromatic in a player label, and
which fills all nine cells, ends on the ninth (cops) ply with result
`-1` and status `Cops shift ends`. -/
theorem c3_valid_fill_no_win_is_tie (os : List StepOutcome) (hlen : os.length = 9)
    (hv : ∀ k, k < 9 → validFor (stateAt os k) (os.getD k StepOutcome.exn) = true)
    (hnw : ∀ k, k < 9 → noPlayerWin (stateAt os (k + 1)).board = true)
    (hfill : gameTied (stateAt os 9).board = true) :
    (stateAt os 9).result = -1 ∧ (stateAt os 9).status = "Cops shift ends" := by
  have hinv : ∀ k, k ≤ 8 →
      (stateAt os k).result = 0 ∧ (stateAt os k).status = "Game continues"
      ∧ (stateAt os k).round = (k : Int) - 1 := by
    intro k
    induction k with
    | zero =>
        intro _
        refine ⟨rfl, rfl, ?_⟩
        show (-1 : Int) = (0 : Nat) - 1
        norm_num
    | succ k ih =>
        intro hk
        have hk8 : k ≤ 8 := by omega
        obtain ⟨hr, hs, hrd⟩ := ih hk8
        have hkl : k < os.length := by omega
        have hstep := stateAt_succ os k hkl
        obtain ⟨hC, hR⟩ := noPlayerWin_split (hnw k (by omega))
        have htie : gameTied (stateAt os (k + 1)).board = false :=
          gameTied_false_of_valid (hv (k + 1) (by omega))
        rw [hstep] at hC hR htie ⊢
        obtain ⟨h1, h2, h3⟩ := nextRound_clean (hv k (by omega)) hC hR htie
        refine ⟨?_, ?_, ?_⟩
        · rw [h1, hr]
        · rw [h2, hs]
        · rw [h3, hrd]
          push_cast
          ring
  obtain ⟨hr8, hs8, hrd8⟩ := hinv 8 (by omega)
  obtain ⟨hC8, hR8⟩ := noPlayerWin_split (hnw 8 (by omega))
  have hstep8 := stateAt_succ os 8 (by omega)
  have hpar : ((stateAt os 8).round + 1) % 2 = 0 := by
    rw [hrd8]
    decide
  rw [hstep8] at hC8 hfill ⊢
  exact nextRound_final hr8 hs8 (hv 8 (by omega)) hpar hC8 hfill

/-- A full drawn game: cops play `(0,0)`, `(0,1)`, `(1,2)`, `(2,0)`,
`(2,1)` and the robber plays `(0,2)`, `(1,0)`, `(1,1)`, `(2,2)`; no
line is ever monochromatic. -/
def c3Moves : List StepOutcome :=
  [StepOutcome.move 0 0, StepOutcome.move 0 2, StepOutcome.move 0 1,
   StepOutcome.move 1 0, StepOutcome.move 1 2, StepOutcome.move 1 1,
   StepOutcome.move 2 0, StepOutcome.move 2 2, StepOutcome.move 2 1]

/-- Witness for C3: the drawn game `c3Moves` ends with result `-1` and
status `Cops shift ends`. -/
theorem c3_valid_fill_no_win_is_tie_witness :
    (stateAt c3Moves 9).result = -1 ∧ (stateAt c3Moves 9).status = "Cops shift ends" :=
  c3_valid_fill_no_win_is_tie c3Moves (by decide) (by decide) (by decide) (by decide)

/-! ## Round counter and engine dispatch -/

@[simp]
lemma bumpRound_round (s : GameState) : (bumpRound s).round = s.round + 1 := rfl

@[simp]
lemma nextRound_round (o : StepOutcome) (s : GameState) :
    (nextRound o s).round = s.round + 1 := by
  unfold nextRound
  split <;> simp

@[simp]
lemma nextRoundE_round (e : EnginePair) (s : GameState) :
    (nextRoundE e s).round = s.round + 1 := by
  unfold nextRoundE
  split <;> simp

lemma runRoundsE_round (e : EnginePair) (n : Nat) (s : GameState) :
    (runRoundsE e n s).round = s.round + n := by
  induction n generalizing s with
  | zero => simp [runRoundsE]
  | succ n ih =>
      show (runRoundsE e n (nextRoundE e s)).round = s.round + ((n : Int) + 1)
      rw [ih, nextRoundE_round]
      ring

/-- Claim C9: the round counter starts at `-1` and is incremented by
exactly `1` on every `next_round()` call; the `n`-th call (0-indexed)
invokes the cops engine's `step` iff `n` is even and the robber
engine's `step` iff `n` is odd. -/
theorem c9_round_counter_parity (e : EnginePair) (n : Nat) :
    startState.round = -1
    ∧ (∀ s : GameState, (nextRoundE e s).round = s.round + 1)
    ∧ (runRoundsE e n startState).round = (n : Int) - 1
    ∧ nextRoundE e (runRoundsE e n startState)
        = (if n % 2 = 0 then
             copsStep (e.copsF (runRoundsE e n startState).board)
               (bumpRound (runRoundsE e n startState))
           else
             robberStep (e.robberF (runRoundsE e n startState).board)
               (bumpRound (runRoundsE e n startState))) := by
  have hround : (runRoundsE e n startState).round = (n : Int) - 1 := by
    rw [runRoundsE_round]
    rw [show startState.round = -1 from rfl]
    ring
  refine ⟨rfl, fun s => nextRoundE_round e s, hround, ?_⟩
  unfold nextRoundE
  have hb : (bumpRound (runRoundsE e n startState)).round = (n : Int) := by
    rw [bumpRound_round, hround]
    ring
  have hcond : ((bumpRound (runRoundsE e n startState)).round % 2 = 0) ↔ (n % 2 = 0) := by
    rw [hb]
    omega
  by_cases hn : n % 2 = 0
  · rw [if_pos (hcond.mpr hn), if_pos hn]
    rfl
  · rw [if_neg (fun hh => hn (hcond.mp hh)), if_neg hn]
    rfl

/-! ## The result is always one of -1, 0, 1 -/

/-- A legal value of `__result`. -/
def ResOK (r : Int) : Prop :=
  r = -1 ∨ r = 0 ∨ r = 1

lemma robberWin_result_cases (s : GameState) :
    (robberWin s).result = s.result ∨ (robberWin s).result = -1 := by
  unfold robberWin
  split
  · right; rfl
  · left; rfl

lemma copsWin_result_cases (s : GameState) :
    (copsWin s).result = s.result ∨ (copsWin s).result = 1 := by
  unfold copsWin
  split
  · right; rfl
  · left; rfl

lemma resOK_of_rw {s : GameState} (st : String) (h : ResOK s.result) :
    ResOK (setStatus st (robberWin s)).result := by
  rw [setStatus_result]
  rcases robberWin_result_cases s with hc | hc <;> rw [hc]
  · exact h
  · left; rfl

lemma resOK_of_cw {s : GameState} (st : String) (h : ResOK s.result) :
    ResOK (setStatus st (copsWin s)).result := by
  rw [setStatus_result]
  rcases copsWin_result_cases s with hc | hc <;> rw [hc]
  · exact h
  · right; right; rfl

lemma resOK_setCopPositions {s : GameState} (m : Option (Int × Int))
    (h : ResOK s.result) : ResOK (setCopPositions m s).result := by
  unfold setCopPositions
  match m with
  | Option.none => exact resOK_of_rw _ h
  | Option.some (i, j) =>
      dsimp only
      split
      · exact resOK_of_rw _ h
      · exact h

lemma resOK_setRobberPosition {s : GameState} (m : Option (Int × Int))
    (h : ResOK s.result) : ResOK (setRobberPosition m s).result := by
  unfold setRobberPosition
  match m with
  | Option.none => exact resOK_of_cw _ h
  | Option.some (i, j) =>
      dsimp only
      split
      · exact resOK_of_cw _ h
      · exact h

lemma resOK_copsStep {s : GameState} (o : StepOutcome) (h : ResOK s.result) :
    ResOK (copsStep o s).result := by
  unfold copsStep
  have h1 : ResOK (copsExnCheck o s).result := by
    cases o with
    | exn => exact resOK_of_rw _ h
    | move i j => exact h
    | noMove => exact h
  have h2 := resOK_setCopPositions (moveOf o) h1
  have h3 : ResOK (copWinCheck (setCopPositions (moveOf o) (copsExnCheck o s))).result := by
    unfold copWinCheck copsThreeInARow
    split
    · exact resOK_of_cw _ h2
    · exact h2
  unfold tieCheck tie
  split
  · exact resOK_of_rw _ h3
  · exact h3

lemma resOK_robberStep {s : GameState} (o : StepOutcome) (h : ResOK s.result) :
    ResOK (robberStep o s).result := by
  unfold robberStep
  have h1 : ResOK (robberExnCheck o s).result := by
    cases o with
    | exn => exact resOK_of_cw _ h
    | move i j => exact h
    | noMove => exact h
  have h2 := resOK_setRobberPosition (moveOf o) h1
  unfold robberWinCheck robberThreeInARow
  split
  · exact resOK_of_rw _ h2
  · exact h2

lemma resOK_nextRound {s : GameState} (o : StepOutcome) (h : ResOK s.result) :
    ResOK (nextRound o s).result := by
  unfold nextRound
  split
  · exact resOK_copsStep o h
  · exact resOK_robberStep o h

lemma resOK_runRounds {s : GameState} (os : List StepOutcome) (h : ResOK s.result) :
    ResOK (runRounds os s).result := by
  induction os generalizing s with
  | nil => exact h
  | cons o os ih => exact ih (resOK_nextRound o h)

lemma resOK_gameInit (copsOk robberOk : Bool) : ResOK (gameInit copsOk robberOk).state.result := by
  cases copsOk <;> cases robberOk
  · left; rfl
  · left; rfl
  · right; right; rfl
  · right; left; rfl

/-- Claim C7: no engine failure propagates out of the referee.  Every
run of the model (any construction outcomes, any sequence of call
outcomes, exceptions included) yields a definite result in
`{-1, 0, 1}`, and every engine exception is converted into the
terminal outcome favouring the opposing side: a raising `step` call on
a continuing game, and a raising factory during construction, each
latch the opponent's win. -/
theorem c7_no_error_propagates (copsOk robberOk : Bool) (os : List StepOutcome)
    (s : GameState) (hres : s.result = 0) (hst : s.status = "Game continues") :
    ((startFrom copsOk robberOk os).result = -1
      ∨ (startFrom copsOk robberOk os).result = 0
      ∨ (startFrom copsOk robberOk os).result = 1)
    ∧ (copsStep StepOutcome.exn s).result = -1
    ∧ (copsStep StepOutcome.exn s).status = "Exception in cops call"
    ∧ (robberStep StepOutcome.exn s).result = 1
    ∧ (robberStep StepOutcome.exn s).status = "Exception in robber call"
    ∧ (gameInit false robberOk).state.result = -1
    ∧ (gameInit true false).state.result = 1 := by
  refine ⟨resOK_runRounds os (resOK_gameInit copsOk robberOk), ?_, ?_, ?_, ?_, ?_, rfl⟩
  · rw [copsStep_exn_continuing hres hst]
  · rw [copsStep_exn_continuing hres hst]
  · rw [robberStep_exn_continuing hres hst]
  · rw [robberStep_exn_continuing hres hst]
  · cases robberOk <;> rfl

/-- Witness for C7: a game whose cops engine raises on the first ply. -/
theorem c7_no_error_propagates_witness :
    ((startFrom true true [StepOutcome.exn]).result = -1
      ∨ (startFrom true true [StepOutcome.exn]).result = 0
      ∨ (startFrom true true [StepOutcome.exn]).result = 1)
    ∧ (copsStep StepOutcome.exn initState).result = -1
    ∧ (copsStep StepOutcome.exn initState).status = "Exception in cops call"
    ∧ (robberStep StepOutcome.exn initState).result = 1
    ∧ (robberStep StepOutcome.exn initState).status = "Exception in robber call"
    ∧ (gameInit false true).state.result = -1
    ∧ (gameInit true false).state.result = 1 :=
  c7_no_error_propagates true true [StepOutcome.exn] initState rfl rfl

/-- Claim C6: if the cops engine factory raises during construction,
the constructor returns normally with result `-1` and status
`Exception in cops call`, and the robber engine instance is never
constructed. -/
theorem c6_cops_factory_failure (robberOk : Bool) :
    (gameInit false robberOk).state.result = -1
    ∧ (gameInit false robberOk).state.status = "Exception in cops call"
    ∧ (gameInit false robberOk).robberMade = false :=
  ⟨rfl, rfl, rfl⟩

end Minigame
